import Mathlib

/-!
Shallow embedding of the analysis caching and data-shaping pipeline of the
Audio-visualizer-3d backend (FastAPI + Motor/MongoDB), covering:
  - app/dependencies.py      (validators, token extraction)
  - app/db/mongodb.py        (cache store: get_cached_analysis, cache_analysis)
  - app/routers/spotify.py   (validate_track_id_param, process_analysis, get_analysis)
  - app/services/spotify_service.py (_make_request status classification)
  - app/models/schemas.py    (pydantic field validation)

Python dictionaries/lists/JSON values are modelled by the inductive type Val;
Python exceptions by the error type PyErr carried in Except; machine floats by
exact rationals (the properties at stake are structural: counts, order,
presence/absence and defaulting, none of which depend on rounding).
-/

namespace AV

/-- Model of a Python/JSON value as it flows through the pipeline. -/
inductive Val where
  | null
  | bool (b : Bool)
  | num (q : ℚ)
  | str (s : String)
  | list (xs : List Val)
  | dict (fields : List (String × Val))

/-- First-match lookup in a dict field list (Python dicts have unique keys,
so only the first binding is ever relevant). -/
def Val.lookup : List (String × Val) → String → Option Val
  | [], _ => none
  | (k, v) :: rest, key => if k = key then some v else Val.lookup rest key

/-- Python truthiness. -/
def Val.truthy : Val → Bool
  | .null => false
  | .bool b => b
  | .num q => decide (q ≠ 0)
  | .str s => !s.isEmpty
  | .list xs => !xs.isEmpty
  | .dict fs => !fs.isEmpty

/-- Whether an Except value is a success (no exception escaped). -/
def okB {ε α : Type} : Except ε α → Bool
  | .ok _ => true
  | .error _ => false

/-- Python exceptions that the modelled code can raise, including the
HTTPException subclasses of app/exceptions.py (status code + detail). -/
inductive PyErr where
  | keyError (key : String)
  | typeError
  | attributeError
  | valueError (msg : String)
  | validationError (field : String)
  | httpError (status : Nat) (detail : String)
  | runtimeError (msg : String)
deriving DecidableEq

/-- Python subscription v[k]: KeyError when a dict lacks the key, TypeError
when the value is not subscriptable by a string key. -/
def pyGetItem (v : Val) (k : String) : Except PyErr Val :=
  match v with
  | .dict fs =>
    match Val.lookup fs k with
    | some x => .ok x
    | none => .error (.keyError k)
  | _ => .error .typeError

/-- Python v.get(k, d): AttributeError when v is not a dict. -/
def pyGet (v : Val) (k : String) (d : Val) : Except PyErr Val :=
  match v with
  | .dict fs => .ok ((Val.lookup fs k).getD d)
  | _ => .error .attributeError

/-- Python comparison v > q for a float threshold q: numbers and bools
compare (bool is an int subtype), anything else raises TypeError. -/
def pyGtFloat (v : Val) (q : ℚ) : Except PyErr Bool :=
  match v with
  | .num p => .ok (decide (q < p))
  | .bool b => .ok (decide (q < (if b then (1 : ℚ) else 0)))
  | _ => .error .typeError

/-- Python iteration (for x in v): lists yield elements, strings their
characters, dicts their keys; other values raise TypeError. -/
def asIter (v : Val) : Except PyErr (List Val) :=
  match v with
  | .list xs => .ok xs
  | .str s => .ok (s.toList.map (fun c => Val.str (String.mk [c])))
  | .dict fs => .ok (fs.map (fun f => Val.str f.1))
  | _ => .error .typeError

/-- Python slicing v[:n] followed by iteration: lists and strings are
sliceable, dicts are not (TypeError). -/
def asSeq (v : Val) : Except PyErr (List Val) :=
  match v with
  | .list xs => .ok xs
  | .str s => .ok (s.toList.map (fun c => Val.str (String.mk [c])))
  | _ => .error .typeError

/-- Pydantic validation of a float-typed field: a number is accepted,
anything else is a ValidationError naming the field. -/
def asFloat (v : Val) (fld : String) : Except PyErr ℚ :=
  match v with
  | .num q => .ok q
  | _ => .error (.validationError fld)

/-- Left-to-right fallible map over a list, stopping at the first error
(the order in which pydantic walks a list field). -/
def mapExc {α : Type} (p : Val → Except PyErr α) : List Val → Except PyErr (List α)
  | [] => .ok []
  | x :: rest => do
    let a ← p x
    let tail ← mapExc p rest
    .ok (a :: tail)

/-- Pydantic validation of a list-of-floats field. -/
def asFloatList (v : Val) (fld : String) : Except PyErr (List ℚ) :=
  match v with
  | .list xs => mapExc (fun x => asFloat x fld) xs
  | _ => .error (.validationError fld)

/-- Pydantic validation of an int-typed field: an integral number is
accepted, anything else is a ValidationError. -/
def asInt (v : Val) (fld : String) : Except PyErr ℤ :=
  match v with
  | .num q => if q.den = 1 then .ok q.num else .error (.validationError fld)
  | _ => .error (.validationError fld)

/-- Pydantic validation of a str-typed field. -/
def asStr (v : Val) (fld : String) : Except PyErr String :=
  match v with
  | .str s => .ok s
  | _ => .error (.validationError fld)

/-! ## Validator (app/dependencies.py, app/routers/spotify.py lines 23-28) -/

/-- Characters removed by Python str.strip() (ASCII whitespace). -/
def pyWS (c : Char) : Bool :=
  c = ' ' || c = '\t' || c = '\n' || c = '\r' || c = '\x0b' || c = '\x0c'

/-- Python str.strip(): drop whitespace from both ends. -/
def pyStrip (s : String) : String :=
  String.mk (((s.toList.dropWhile pyWS).reverse.dropWhile pyWS).reverse)

/-- The base62 alphabet [A-Za-z0-9] of the track-id regex. -/
def isB62Char (c : Char) : Bool :=
  (decide (c ≥ 'A') && decide (c ≤ 'Z')) ||
  (decide (c ≥ 'a') && decide (c ≤ 'z')) ||
  (decide (c ≥ '0') && decide (c ≤ '9'))

/-- Full match of a string against [A-Za-z0-9] exactly 22 times, the
mathematical reading of the regex in the specification. -/
def matches22 (s : String) : Bool :=
  s.toList.length = 22 && s.toList.all isB62Char

/-- Python re.match of the anchored pattern [A-Za-z0-9] exactly 22 times:
the Dollar anchor also matches just before a single trailing newline. -/
def reMatch22 (s : String) : Bool :=
  let cs := s.toList
  let core := if cs.getLast? = some '\n' then cs.dropLast else cs
  core.length = 22 && core.all isB62Char

/-- Python re.match of an anchored one-or-more character-class pattern,
with the same trailing-newline tolerance of the Dollar anchor. -/
def reMatchPlus (p : Char → Bool) (s : String) : Bool :=
  let cs := s.toList
  let core := if cs.getLast? = some '\n' then cs.dropLast else cs
  !core.isEmpty && core.all p

/-- dependencies.validate_track_id: empty check, strip, regex check,
raising ValueError on mismatch and returning the stripped id on match. -/
def validate_track_id (track_id : String) : Except PyErr String :=
  if track_id.toList.isEmpty then .error (.valueError "Track ID required")
  else
    let t := pyStrip track_id
    if reMatch22 t then .ok t else .error (.valueError "Invalid track ID format")

/-- routers/spotify.validate_track_id_param: strip then regex check,
raising InvalidTrackError (HTTP 400) on mismatch. -/
def validate_track_id_param (track_id : String) : Except PyErr String :=
  let t := pyStrip track_id
  if reMatch22 t then .ok t else .error (.httpError 400 "Invalid track ID format")

/-- dependencies.validate_spotify_token_format: nonempty, length in
[50, 500], and a full match of [A-Za-z0-9_-]+ (re.match semantics). -/
def validate_spotify_token_format (token : String) : Bool :=
  if token.toList.isEmpty then false
  else if token.toList.length < 50 || 500 < token.toList.length then false
  else reMatchPlus (fun c => isB62Char c || c = '_' || c = '-') token

/-- dependencies.get_spotify_token: extract the bearer token from the
Authorization header and validate its format. -/
def get_spotify_token (authorization : Option String) : Except PyErr String :=
  match authorization with
  | none => .error (.httpError 401 "Invalid or expired token")
  | some a =>
    if a.toList.take 7 ≠ "Bearer ".toList then
      .error (.httpError 401 "Invalid or expired token")
    else
      let token := a.drop 7
      if !validate_spotify_token_format token then
        .error (.httpError 401 "Invalid or expired token")
      else .ok token

/-! ## Cache Store (app/db/mongodb.py)

Two complementary views are embedded.

The state view models the MongoDB collection itself as a list of documents
so that find_one / update_one(upsert=True) round trips can be stated; it is
the success path of the driver calls.

The oracle view models one call to get_cached_analysis / cache_analysis
where the outcome of the underlying driver call is a parameter (an Except
value), which is how the try/except wrappers of mongodb.py are exercised
by arbitrary backing-store failures. -/

/-- One document of the analysis_cache collection:
fields track_id, analysis, cached_at set by cache_analysis. -/
structure CacheDoc where
  track_id : String
  analysis : Val
  cached_at : ℚ

/-- The TTL of the cached_at index created in connect_db:
expireAfterSeconds = 60*60*24*7. -/
def ttlSeconds : ℚ := 60 * 60 * 24 * 7

/-- MongoDB find_one on filter by track_id: first matching document. -/
def find_one (store : List CacheDoc) (tid : String) : Option CacheDoc :=
  store.find? (fun d => d.track_id == tid)

/-- Success path of get_cached_analysis over the physical collection state:
find_one with projection to the analysis field; the projected document is a
nonempty dict, hence truthy, so its analysis field is returned.  There is
no read-time check of cached_at against the TTL. -/
def getCachedPure (store : List CacheDoc) (tid : String) : Option Val :=
  match find_one store tid with
  | none => none
  | some doc => some doc.analysis

/-- MongoDB update_one with filter by track_id, a dollar-set of all three
fields, and upsert=True: overwrite the first matching document wholesale,
or append a new one when none matches. -/
def update_one_upsert (store : List CacheDoc) (tid : String) (a : Val) (now : ℚ) :
    List CacheDoc :=
  match store with
  | [] => [⟨tid, a, now⟩]
  | d :: rest =>
    if d.track_id == tid then ⟨tid, a, now⟩ :: rest
    else d :: update_one_upsert rest tid a now

/-- A cache entry older than the TTL at the given instant (the notion the
specification uses for expiry). -/
def isExpired (doc : CacheDoc) (now : ℚ) : Prop := ttlSeconds < now - doc.cached_at

/-- get_cached_analysis as the try/except wrapper around one driver call:
dbReady models whether connect_db has initialized the module-level handle
(get_db raises RuntimeError outside the try block when it has not);
findRes is the outcome of find_one projected to the fields of interest.
Any driver failure is caught and degrades to None; a falsy projected
document is a miss; doc.get of a missing analysis field yields None. -/
def get_cached_analysis (dbReady : Bool) (findRes : Except PyErr (Option Val)) :
    Except PyErr (Option Val) :=
  if dbReady = false then
    .error (.runtimeError "Database not initialized. Call connect_db() first.")
  else
    match findRes with
    | .error _ => .ok none
    | .ok none => .ok none
    | .ok (some doc) =>
      match doc with
      | .dict fs => if fs.isEmpty then .ok none else .ok (Val.lookup fs "analysis")
      | _ => .ok none

/-- cache_analysis as the try/except wrapper around one update_one call:
any driver failure is caught and degrades to returning False. -/
def cache_analysis (dbReady : Bool) (updRes : Except PyErr Unit) : Except PyErr Bool :=
  if dbReady = false then
    .error (.runtimeError "Database not initialized. Call connect_db() first.")
  else
    match updRes with
    | .error _ => .ok false
    | .ok _ => .ok true

/-! ## Analysis Transformer (app/routers/spotify.py process_analysis,
with the pydantic field validation of app/models/schemas.py) -/

/-- BeatData of schemas.py. -/
structure BeatData where
  start : ℚ
  duration : ℚ
  confidence : ℚ
deriving DecidableEq

/-- SegmentData of schemas.py. -/
structure SegmentData where
  start : ℚ
  duration : ℚ
  loudness : ℚ
  pitches : List ℚ
  timbre : List ℚ
deriving DecidableEq

/-- SectionData of schemas.py. -/
structure SectionData where
  start : ℚ
  duration : ℚ
  tempo : ℚ
  key : ℤ
  mode : ℤ
  loudness : ℚ
deriving DecidableEq

/-- AnalysisResponse of schemas.py (its scalar fields carry no bounds). -/
structure AnalysisResponse where
  track_id : String
  duration : ℚ
  tempo : ℚ
  energy : ℚ
  beats : List BeatData
  segments : List SegmentData
  sections : List SectionData
deriving DecidableEq

/-- Pydantic bound checks of BeatData:
start ge 0, duration gt 0, confidence in [0, 1]. -/
def BeatData.validate (s d c : ℚ) : Except PyErr BeatData :=
  if s < 0 then .error (.validationError "start")
  else if d ≤ 0 then .error (.validationError "duration")
  else if c < 0 ∨ 1 < c then .error (.validationError "confidence")
  else .ok ⟨s, d, c⟩

/-- Pydantic bound checks of SegmentData:
start ge 0, duration gt 0, pitches and timbre of length exactly 12. -/
def SegmentData.validate (s d l : ℚ) (ps ts : List ℚ) : Except PyErr SegmentData :=
  if s < 0 then .error (.validationError "start")
  else if d ≤ 0 then .error (.validationError "duration")
  else if ps.length ≠ 12 then .error (.validationError "pitches")
  else if ts.length ≠ 12 then .error (.validationError "timbre")
  else .ok ⟨s, d, l, ps, ts⟩

/-- Pydantic bound checks of SectionData:
start ge 0, duration gt 0, tempo gt 0, key in [-1, 11], mode in [0, 1]. -/
def SectionData.validate (s d t : ℚ) (k m : ℤ) (l : ℚ) : Except PyErr SectionData :=
  if s < 0 then .error (.validationError "start")
  else if d ≤ 0 then .error (.validationError "duration")
  else if t ≤ 0 then .error (.validationError "tempo")
  else if k < -1 ∨ 11 < k then .error (.validationError "key")
  else if m < 0 ∨ 1 < m then .error (.validationError "mode")
  else .ok ⟨s, d, t, k, m, l⟩

/-- The confidence threshold of the beats filter (source literal 0.3). -/
def confThreshold : ℚ := mkRat 3 10

/-- Twelve zeros, the default for absent pitches/timbre. -/
def zeros12 : Val := .list (List.replicate 12 (.num 0))

/-- One beat of the comprehension body: BeatData(start=b[start],
duration=b[duration], confidence=b[confidence]) with required subscripts
followed by pydantic validation. -/
def convBeat (b : Val) : Except PyErr BeatData := do
  let sv ← pyGetItem b "start"
  let dv ← pyGetItem b "duration"
  let cv ← pyGetItem b "confidence"
  let s ← asFloat sv "start"
  let d ← asFloat dv "duration"
  let c ← asFloat cv "confidence"
  BeatData.validate s d c

/-- The beats comprehension: for each record evaluate the filter
b.get(confidence, 0) > 0.3, and convert the records that pass. -/
def buildBeats : List Val → Except PyErr (List BeatData)
  | [] => .ok []
  | b :: rest => do
    let cv ← pyGet b "confidence" (.num 0)
    let keep ← pyGtFloat cv confThreshold
    if keep then
      let bd ← convBeat b
      let tail ← buildBeats rest
      .ok (bd :: tail)
    else
      buildBeats rest

/-- One segment of the comprehension body: required start and duration
subscripts, loudness defaulted through loudness_start then loudness then
-60, pitches/timbre defaulted to twelve zeros when absent, then pydantic
validation (which requires length exactly 12). -/
def convSegment (s : Val) : Except PyErr SegmentData := do
  let sv ← pyGetItem s "start"
  let dv ← pyGetItem s "duration"
  let ldef ← pyGet s "loudness" (.num (-60))
  let lv ← pyGet s "loudness_start" ldef
  let pv ← pyGet s "pitches" zeros12
  let tv ← pyGet s "timbre" zeros12
  let st ← asFloat sv "start"
  let du ← asFloat dv "duration"
  let lo ← asFloat lv "loudness"
  let ps ← asFloatList pv "pitches"
  let ts ← asFloatList tv "timbre"
  SegmentData.validate st du lo ps ts

/-- The segments comprehension over the first 2000 raw records. -/
def buildSegments : List Val → Except PyErr (List SegmentData)
  | [] => .ok []
  | s :: rest => do
    let sd ← convSegment s
    let tail ← buildSegments rest
    .ok (sd :: tail)

/-- One section of the comprehension body: required start and duration
subscripts, tempo/key/mode/loudness defaulted to 120 / -1 / 0 / -10, then
pydantic validation. -/
def convSection (s : Val) : Except PyErr SectionData := do
  let sv ← pyGetItem s "start"
  let dv ← pyGetItem s "duration"
  let tv ← pyGet s "tempo" (.num 120)
  let kv ← pyGet s "key" (.num (-1))
  let mv ← pyGet s "mode" (.num 0)
  let lv ← pyGet s "loudness" (.num (-10))
  let st ← asFloat sv "start"
  let du ← asFloat dv "duration"
  let te ← asFloat tv "tempo"
  let k ← asInt kv "key"
  let m ← asInt mv "mode"
  let lo ← asFloat lv "loudness"
  SectionData.validate st du te k m lo

/-- The sections comprehension (no truncation). -/
def buildSections : List Val → Except PyErr (List SectionData)
  | [] => .ok []
  | s :: rest => do
    let sd ← convSection s
    let tail ← buildSections rest
    .ok (sd :: tail)

/-- process_analysis of app/routers/spotify.py: beats filtered by
confidence, segments truncated to 2000, sections mapped, then the
top-level fields with their defaults, in source evaluation order. -/
def process_analysis (track_id : String) (analysis features : Val) :
    Except PyErr AnalysisResponse := do
  let rawBeats ← pyGet analysis "beats" (.list [])
  let beatRecords ← asIter rawBeats
  let beats ← buildBeats beatRecords
  let rawSegments ← pyGet analysis "segments" (.list [])
  let segRecords ← asSeq rawSegments
  let segments ← buildSegments (segRecords.take 2000)
  let rawSections ← pyGet analysis "sections" (.list [])
  let secRecords ← asIter rawSections
  let sections ← buildSections secRecords
  let track_info ← pyGet analysis "track" (.dict [])
  let durV ← pyGet track_info "duration" (.num 0)
  let tempoDef ← pyGet track_info "tempo" (.num 120)
  let tempoV ← pyGet features "tempo" tempoDef
  let energyV ← pyGet features "energy" (.num (mkRat 1 2))
  let duration ← asFloat durV "duration"
  let tempo ← asFloat tempoV "tempo"
  let energy ← asFloat energyV "energy"
  .ok ⟨track_id, duration, tempo, energy, beats, segments, sections⟩

/-! ## Upstream Client (app/services/spotify_service.py _make_request) -/

/-- The outcome of the one HTTP call of _make_request: a response with a
status code, an optional Retry-After header and a JSON body, or a
transport-level timeout, or another network error. -/
inductive UpstreamOutcome where
  | response (status : Nat) (retryAfterHeader : Option String) (body : Val)
  | timeout
  | netError

/-- The value of the Retry-After header as read at line 68 of
spotify_service.py (headers.get with default "60"); it is only logged,
never parsed and never propagated. -/
def retryAfterLogged (h : Option String) : String := h.getD "60"

/-- Status classification of _make_request.  Every raised error is one of
the HTTPException subclasses of app/exceptions.py with its fixed status
code and static detail; in particular SpotifyAPIError always carries
status 502. -/
def make_request (o : UpstreamOutcome) : Except PyErr (Option Val) :=
  match o with
  | .response s _ b =>
    if s = 204 then .ok none
    else if s = 401 then .error (.httpError 401 "Token expired. Please re-authenticate.")
    else if s = 404 then .error (.httpError 404 "Track not found")
    else if s = 429 then .error (.httpError 502 "Rate limited by Spotify. Try again shortly.")
    else if 500 ≤ s then .error (.httpError 502 "Spotify service temporarily unavailable")
    else if 400 ≤ s then .error (.httpError 502 "Request failed")
    else .ok (some b)
  | .timeout => .error (.httpError 502 "Spotify is not responding. Try again.")
  | .netError => .error (.httpError 502 "Spotify service temporarily unavailable")

/-- The HTTP status carried by a classified error, when there is one. -/
def errStatus (r : Except PyErr (Option Val)) : Option Nat :=
  match r with
  | .error (.httpError s _) => some s
  | _ => none

/-! ## Parsing a cached document back into AnalysisResponse
(AnalysisResponse(**cached) on the cache-hit path: pydantic validation of
every nested record, all fields required, extra keys ignored). -/

/-- A required pydantic field of a model built from a dict. -/
def fieldRequired (fs : List (String × Val)) (k : String) : Except PyErr Val :=
  match Val.lookup fs k with
  | some v => .ok v
  | none => .error (.validationError k)

/-- Pydantic parse of one BeatData record from a dict value. -/
def parseBeat (v : Val) : Except PyErr BeatData :=
  match v with
  | .dict fs => do
    let sv ← fieldRequired fs "start"
    let dv ← fieldRequired fs "duration"
    let cv ← fieldRequired fs "confidence"
    let s ← asFloat sv "start"
    let d ← asFloat dv "duration"
    let c ← asFloat cv "confidence"
    BeatData.validate s d c
  | _ => .error (.validationError "beats")

/-- Pydantic parse of one SegmentData record from a dict value. -/
def parseSegment (v : Val) : Except PyErr SegmentData :=
  match v with
  | .dict fs => do
    let sv ← fieldRequired fs "start"
    let dv ← fieldRequired fs "duration"
    let lv ← fieldRequired fs "loudness"
    let pv ← fieldRequired fs "pitches"
    let tv ← fieldRequired fs "timbre"
    let s ← asFloat sv "start"
    let d ← asFloat dv "duration"
    let l ← asFloat lv "loudness"
    let ps ← asFloatList pv "pitches"
    let ts ← asFloatList tv "timbre"
    SegmentData.validate s d l ps ts
  | _ => .error (.validationError "segments")

/-- Pydantic parse of one SectionData record from a dict value. -/
def parseSection (v : Val) : Except PyErr SectionData :=
  match v with
  | .dict fs => do
    let sv ← fieldRequired fs "start"
    let dv ← fieldRequired fs "duration"
    let tv ← fieldRequired fs "tempo"
    let kv ← fieldRequired fs "key"
    let mv ← fieldRequired fs "mode"
    let lv ← fieldRequired fs "loudness"
    let s ← asFloat sv "start"
    let d ← asFloat dv "duration"
    let t ← asFloat tv "tempo"
    let k ← asInt kv "key"
    let m ← asInt mv "mode"
    let l ← asFloat lv "loudness"
    SectionData.validate s d t k m l
  | _ => .error (.validationError "sections")

/-- Pydantic parse of a list-typed field. -/
def parseListOf {α : Type} (p : Val → Except PyErr α) (v : Val) (fld : String) :
    Except PyErr (List α) :=
  match v with
  | .list xs => mapExc p xs
  | _ => .error (.validationError fld)

/-- AnalysisResponse(**cached): pydantic validation of the cached dict,
every field required, nested records re-validated. -/
def parseAnalysisResponse (d : Val) : Except PyErr AnalysisResponse :=
  match d with
  | .dict fs => do
    let tidv ← fieldRequired fs "track_id"
    let tid ← asStr tidv "track_id"
    let durv ← fieldRequired fs "duration"
    let dur ← asFloat durv "duration"
    let temv ← fieldRequired fs "tempo"
    let tem ← asFloat temv "tempo"
    let env ← fieldRequired fs "energy"
    let en ← asFloat env "energy"
    let bv ← fieldRequired fs "beats"
    let beats ← parseListOf parseBeat bv "beats"
    let sv ← fieldRequired fs "segments"
    let segments ← parseListOf parseSegment sv "segments"
    let cv ← fieldRequired fs "sections"
    let sections ← parseListOf parseSection cv "sections"
    .ok ⟨tid, dur, tem, en, beats, segments, sections⟩
  | _ => .error (.validationError "response")

/-! ## Analysis Orchestrator (app/routers/spotify.py get_analysis)

The request handler is embedded with the outcomes of its external calls as
parameters: the cache read, the two upstream fetches and the cache write
are each an Except value supplied by the environment.  The second
component of the result counts how many upstream calls were issued
(0 = none, 1 = analysis only, 2 = analysis and features). -/

/-- get_analysis of app/routers/spotify.py.  The token parameter is the
validated bearer token; note it is only ever handed to the upstream
client, whose outcomes are the aRes/fRes parameters. -/
def get_analysis (tid0 : String) (token : String)
    (cacheGet : Except PyErr (Option Val))
    (aRes fRes : Except PyErr (Option Val))
    (updRes : Except PyErr Unit) :
    (Except PyErr AnalysisResponse) × Nat :=
  match validate_track_id_param tid0 with
  | .error e => (.error e, 0)
  | .ok tid =>
    match get_cached_analysis true cacheGet with
    | .error e => (.error e, 0)
    | .ok cachedOpt =>
      let cached := cachedOpt.getD .null
      if cached.truthy then (parseAnalysisResponse cached, 0)
      else
        match aRes with
        | .error e => (.error e, 1)
        | .ok aOpt =>
          match fRes with
          | .error e => (.error e, 2)
          | .ok fOpt =>
            let analysis := aOpt.getD .null
            if analysis.truthy = false then
              (.error (.httpError 404 "Track analysis not found"), 2)
            else
              let features := fOpt.getD .null
              match process_analysis tid analysis features with
              | .error e => (.error e, 2)
              | .ok processed =>
                match cache_analysis true updRes with
                | .error e => (.error e, 2)
                | .ok _ => (.ok processed, 2)

/-! ## Spec-side total converters

These definitions state the defaulting contract of the transformer in the
words of the (amended) specification: on well-formed records every absent
optional field falls back to its stated default.  They are compared with
the source-derived converters in the refinement theorem for C1. -/

/-- Whether a value is a plain number. -/
def isNumV : Val → Bool
  | .num _ => true
  | _ => false

/-- The number carried by a value, 0 otherwise. -/
def numOfV : Val → ℚ
  | .num q => q
  | _ => 0

/-- The numeric field k of a record, with default d when the record lacks
it (the reading of the defaults in the specification). -/
def numField (v : Val) (k : String) (d : ℚ) : ℚ :=
  match v with
  | .dict fs =>
    match Val.lookup fs k with
    | some (.num q) => q
    | _ => d
  | _ => d

/-- The integer field k of a record, with default d when absent. -/
def intField (v : Val) (k : String) (d : ℤ) : ℤ :=
  match v with
  | .dict fs =>
    match Val.lookup fs k with
    | some (.num q) => if q.den = 1 then q.num else d
    | _ => d
  | _ => d

/-- A list-of-floats field, defaulting to twelve zeros when absent. -/
def floats12Field (v : Val) (k : String) : List ℚ :=
  match v with
  | .dict fs =>
    match Val.lookup fs k with
    | some (.list xs) => xs.map numOfV
    | _ => List.replicate 12 0
  | _ => List.replicate 12 0

/-- Segment loudness per the specification: loudness_start when present,
else loudness, else -60. -/
def segLoudness (v : Val) : ℚ :=
  match v with
  | .dict fs =>
    match Val.lookup fs "loudness_start" with
    | some (.num q) => q
    | _ =>
      match Val.lookup fs "loudness" with
      | some (.num q) => q
      | _ => -60
  | _ => -60

/-- A list-valued field of the analysis payload, empty when absent. -/
def listField (v : Val) (k : String) : List Val :=
  match v with
  | .dict fs =>
    match Val.lookup fs k with
    | some (.list xs) => xs
    | _ => []
  | _ => []

/-- The track sub-object of the analysis payload, empty when absent. -/
def trackOf (v : Val) : Val :=
  match v with
  | .dict fs => (Val.lookup fs "track").getD (.dict [])
  | _ => .dict []

/-- Spec-side beat conversion. -/
def specBeat (b : Val) : BeatData :=
  ⟨numField b "start" 0, numField b "duration" 0, numField b "confidence" 0⟩

/-- Spec-side segment conversion with the stated defaults. -/
def specSegment (s : Val) : SegmentData :=
  ⟨numField s "start" 0, numField s "duration" 0, segLoudness s,
   floats12Field s "pitches", floats12Field s "timbre"⟩

/-- Spec-side section conversion with the stated defaults. -/
def specSection (s : Val) : SectionData :=
  ⟨numField s "start" 0, numField s "duration" 0, numField s "tempo" 120,
   intField s "key" (-1), intField s "mode" 0, numField s "loudness" (-10)⟩

/-- Spec-side transformer result: beats filtered by confidence above the
threshold, segments truncated to 2000, sections mapped, top-level fields
with their defaults (duration 0; tempo from features, else the track
sub-object, else 120; energy one half). -/
def specResult (tid : String) (analysis features : Val) : AnalysisResponse :=
  ⟨tid,
   numField (trackOf analysis) "duration" 0,
   numField features "tempo" (numField (trackOf analysis) "tempo" 120),
   numField features "energy" (mkRat 1 2),
   ((listField analysis "beats").filter
     (fun b => decide (confThreshold < numField b "confidence" 0))).map specBeat,
   ((listField analysis "segments").take 2000).map specSegment,
   (listField analysis "sections").map specSection⟩

/-! ## Well-formedness of raw payload records

These predicates delimit the payloads on which the transformer is total:
records are dicts, required start/duration fields are present numbers in
the schema bounds, optional fields are numbers (or well-shaped lists)
when present. -/

/-- Field k is a number satisfying P (required field). -/
def reqNum (fs : List (String × Val)) (k : String) (P : ℚ → Prop) [DecidablePred P] : Bool :=
  match Val.lookup fs k with
  | some (.num q) => decide (P q)
  | _ => false

/-- Field k is absent, or a number satisfying P. -/
def optNum (fs : List (String × Val)) (k : String) (P : ℚ → Prop) [DecidablePred P] : Bool :=
  match Val.lookup fs k with
  | none => true
  | some (.num q) => decide (P q)
  | some _ => false

/-- Field k is absent, or an integral number whose integer satisfies P. -/
def optInt (fs : List (String × Val)) (k : String) (P : ℤ → Prop) [DecidablePred P] : Bool :=
  match Val.lookup fs k with
  | none => true
  | some (.num q) => decide (q.den = 1) && decide (P q.num)
  | some _ => false

/-- A well-formed raw beat record: the confidence field is absent or a
number, and when it passes the filter the record carries a start at least
0, a duration above 0, and a confidence at most 1. -/
def beatOk (b : Val) : Bool :=
  match b with
  | .dict fs =>
    match Val.lookup fs "confidence" with
    | none => true
    | some (.num c) =>
      if confThreshold < c then
        (match Val.lookup fs "start" with
         | some (.num s) => decide (0 ≤ s)
         | _ => false) &&
        (match Val.lookup fs "duration" with
         | some (.num d) => decide (0 < d)
         | _ => false) &&
        decide (c ≤ 1)
      else true
    | some _ => false
  | _ => false

/-- A list of exactly twelve numbers. -/
def floatList12 (v : Val) : Bool :=
  match v with
  | .list xs => decide (xs.length = 12) && xs.all isNumV
  | _ => false

/-- Field k is absent, or a list of exactly twelve numbers. -/
def optFloats12 (fs : List (String × Val)) (k : String) : Bool :=
  match Val.lookup fs k with
  | none => true
  | some v => floatList12 v

/-- A well-formed raw segment record. -/
def segOk (s : Val) : Bool :=
  match s with
  | .dict fs =>
    reqNum fs "start" (fun q => 0 ≤ q) &&
    reqNum fs "duration" (fun q => 0 < q) &&
    optNum fs "loudness_start" (fun _ => True) &&
    optNum fs "loudness" (fun _ => True) &&
    optFloats12 fs "pitches" &&
    optFloats12 fs "timbre"
  | _ => false

/-- A well-formed raw section record. -/
def secOk (s : Val) : Bool :=
  match s with
  | .dict fs =>
    reqNum fs "start" (fun q => 0 ≤ q) &&
    reqNum fs "duration" (fun q => 0 < q) &&
    optNum fs "tempo" (fun q => 0 < q) &&
    optInt fs "key" (fun k => -1 ≤ k ∧ k ≤ 11) &&
    optInt fs "mode" (fun m => 0 ≤ m ∧ m ≤ 1) &&
    optNum fs "loudness" (fun _ => True)
  | _ => false

/-- Field k is absent or a list whose members all satisfy p. -/
def listFieldOk (fs : List (String × Val)) (k : String) (p : Val → Bool) : Bool :=
  match Val.lookup fs k with
  | none => true
  | some (.list xs) => xs.all p
  | some _ => false

/-- The segments field is absent or a list whose first 2000 members are
well-formed (members beyond the cap are never converted). -/
def segsFieldOk (fs : List (String × Val)) : Bool :=
  match Val.lookup fs "segments" with
  | none => true
  | some (.list xs) => (xs.take 2000).all segOk
  | some _ => false

/-- The track sub-object is absent or a dict whose duration and tempo are
absent or numbers. -/
def trackFieldOk (fs : List (String × Val)) : Bool :=
  match Val.lookup fs "track" with
  | none => true
  | some (.dict ts) =>
    optNum ts "duration" (fun _ => True) && optNum ts "tempo" (fun _ => True)
  | some _ => false

/-- A well-formed pair of raw payloads: both dicts, every beat/section
record and every segment record within the cap well-formed, the track
sub-object well-shaped, and the tempo/energy features absent or numbers. -/
def analysisOk (analysis features : Val) : Bool :=
  match analysis, features with
  | .dict fs, .dict gs =>
    listFieldOk fs "beats" beatOk && segsFieldOk fs &&
    listFieldOk fs "sections" secOk && trackFieldOk fs &&
    optNum gs "tempo" (fun _ => True) && optNum gs "energy" (fun _ => True)
  | _, _ => false

/-- A 22-character track id used by the concrete scenarios. -/
def tid22 : String := "aaaaaaaaaaaaaaaaaaaaaa"

/-- A concrete stored document whose cached_at is seven days and one
second older than the probe instant used in C2. -/
def expiredDoc : CacheDoc := ⟨"6rqhFgbbKwnb9MLmUQDhG6", .dict [("tempo", .num 120)], 0⟩

/-! ## Concrete inputs for the witnesses -/

/-- A well-formed raw analysis payload exercising every default path. -/
def aEx1 : Val := .dict [
  ("beats", .list [.dict [("confidence", .num 1), ("start", .num 0), ("duration", .num 1)]]),
  ("segments", .list [.dict [("start", .num 0), ("duration", .num 1)]]),
  ("sections", .list [.dict [("start", .num 0), ("duration", .num 2), ("key", .num 5)]]),
  ("track", .dict [("duration", .num 200)])]

/-- A well-formed raw features payload with only a tempo. -/
def fEx1 : Val := .dict [("tempo", .num 128)]

/-- A raw segment record with only the required fields. -/
def segRecEx : Val := .dict [("start", .num 0), ("duration", .num 1)]

/-- A raw analysis payload with one segment. -/
def aEx4 : Val := .dict [("segments", .list [segRecEx])]

/-- The transformed response of aEx4 with an empty features payload. -/
def rEx4 : AnalysisResponse :=
  ⟨tid22, 0, 120, mkRat 1 2, [],
   [⟨0, 1, -60, List.replicate 12 0, List.replicate 12 0⟩], []⟩

/-- A raw beat record passing the confidence filter. -/
def beatRecEx : Val :=
  .dict [("confidence", .num 1), ("start", .num 0), ("duration", .num 1)]

/-- A raw analysis payload with one beat. -/
def aEx5 : Val := .dict [("beats", .list [beatRecEx])]

/-- The transformed response of aEx5 with an empty features payload. -/
def rEx5 : AnalysisResponse := ⟨tid22, 0, 120, mkRat 1 2, [⟨0, 1, 1⟩], [], []⟩

/-- A cached analysis document as stored by cache_analysis. -/
def cachedDocEx : Val := .dict [
  ("track_id", .str tid22), ("duration", .num 200), ("tempo", .num 120),
  ("energy", .num 1), ("beats", .list []), ("segments", .list []),
  ("sections", .list [])]

/-- The parse of cachedDocEx. -/
def rEx10 : AnalysisResponse := ⟨tid22, 200, 120, 1, [], [], []⟩

/-- A well-formed Authorization header (Bearer plus 50 base62 chars). -/
def hdrEx1 : String := "Bearer aaaaaaaaaaaaaaaaaaaaaaaaaaaaaaaaaaaaaaaaaaaaaaaaaa"

/-- Another well-formed Authorization header with a different token. -/
def hdrEx2 : String := "Bearer bbbbbbbbbbbbbbbbbbbbbbbbbbbbbbbbbbbbbbbbbbbbbbbbbb"


/-! ## Proof infrastructure for the Except monad -/

theorem confThreshold_eq : confThreshold = 3 / 10 := by
  unfold confThreshold
  rw [Rat.mkRat_eq_div]
  norm_num

theorem exc_ok_bind {α β : Type} (v : α) (g : α → Except PyErr β) :
    (Except.ok v >>= g) = g v := rfl

theorem exc_error_bind {α β : Type} (e : PyErr) (g : α → Except PyErr β) :
    ((Except.error e : Except PyErr α) >>= g) = Except.error e := rfl

theorem exc_bind_ok_iff {α β : Type} {x : Except PyErr α} {g : α → Except PyErr β} {r : β} :
    (x >>= g) = .ok r ↔ ∃ v, x = .ok v ∧ g v = .ok r := by
  cases x with
  | error e =>
    constructor
    · intro h
      exact absurd h (by simp [exc_error_bind])
    · rintro ⟨v, hv, -⟩
      exact absurd hv (by simp)
  | ok v =>
    constructor
    · intro h
      exact ⟨v, rfl, by simpa [exc_ok_bind] using h⟩
    · rintro ⟨w, hw, hgw⟩
      cases hw
      simpa [exc_ok_bind] using hgw

/-- mapping asFloat over a list of numbers succeeds with their values. -/
theorem mapExc_asFloat_ok (xs : List Val) (fld : String)
    (h : xs.all isNumV = true) :
    mapExc (fun x => asFloat x fld) xs = .ok (xs.map numOfV) := by
  induction xs with
  | nil => rfl
  | cons x rest ih =>
    simp only [List.all_cons, Bool.and_eq_true] at h
    obtain ⟨hx, hrest⟩ := h
    cases x with
    | num q =>
      simp only [mapExc, List.map_cons]
      rw [show asFloat (Val.num q) fld = Except.ok q from rfl, exc_ok_bind, ih hrest,
        exc_ok_bind]
      rfl
    | null => simp [isNumV] at hx
    | bool b => simp [isNumV] at hx
    | str s => simp [isNumV] at hx
    | list xs => simp [isNumV] at hx
    | dict fs => simp [isNumV] at hx

theorem reqNum_get {fs : List (String × Val)} {k : String} {P : ℚ → Prop}
    [DecidablePred P] (h : reqNum fs k P = true) :
    ∃ q, Val.lookup fs k = some (.num q) ∧ P q := by
  unfold reqNum at h
  cases hl : Val.lookup fs k with
  | none => rw [hl] at h; exact absurd h (by simp)
  | some v =>
    rw [hl] at h
    cases v with
    | num q => exact ⟨q, rfl, of_decide_eq_true h⟩
    | null => exact absurd h (by simp)
    | bool b => exact absurd h (by simp)
    | str s => exact absurd h (by simp)
    | list xs => exact absurd h (by simp)
    | dict gs => exact absurd h (by simp)

theorem optNum_pyGet {fs : List (String × Val)} {k : String} {P : ℚ → Prop}
    [DecidablePred P] (d : ℚ) (hd : P d) (h : optNum fs k P = true) :
    pyGet (.dict fs) k (.num d) = .ok (.num (numField (.dict fs) k d)) ∧
      P (numField (.dict fs) k d) := by
  unfold optNum at h
  cases hl : Val.lookup fs k with
  | none => constructor <;> simp [pyGet, numField, hl, hd]
  | some v =>
    rw [hl] at h
    cases v with
    | num q =>
      refine ⟨by simp [pyGet, numField, hl], ?_⟩
      simpa [numField, hl] using of_decide_eq_true h
    | null => exact absurd h (by simp)
    | bool b => exact absurd h (by simp)
    | str s => exact absurd h (by simp)
    | list xs => exact absurd h (by simp)
    | dict gs => exact absurd h (by simp)

theorem optInt_pyGet {fs : List (String × Val)} {k : String} {P : ℤ → Prop}
    [DecidablePred P] (dq : ℚ) (dz : ℤ) (hcast : dq = (dz : ℚ)) (hd : P dz)
    (fld : String) (h : optInt fs k P = true) :
    ∃ v, pyGet (.dict fs) k (.num dq) = .ok v ∧
      asInt v fld = .ok (intField (.dict fs) k dz) ∧
      P (intField (.dict fs) k dz) := by
  unfold optInt at h
  cases hl : Val.lookup fs k with
  | none =>
    refine ⟨.num dq, by simp [pyGet, hl], ?_, ?_⟩
    · subst hcast
      simp [asInt, intField, hl, Rat.den_intCast, Rat.num_intCast]
    · simpa [intField, hl] using hd
  | some v =>
    rw [hl] at h
    cases v with
    | num q =>
      simp only [Bool.and_eq_true, decide_eq_true_eq] at h
      obtain ⟨hden, hP⟩ := h
      refine ⟨.num q, by simp [pyGet, hl], ?_, ?_⟩
      · simp [asInt, intField, hl, hden]
      · simpa [intField, hl, hden] using hP
    | null => exact absurd h (by simp)
    | bool b => exact absurd h (by simp)
    | str s => exact absurd h (by simp)
    | list xs => exact absurd h (by simp)
    | dict gs => exact absurd h (by simp)

theorem optFloats12_pyGet {fs : List (String × Val)} {k : String} (fld : String)
    (h : optFloats12 fs k = true) :
    ∃ v, pyGet (.dict fs) k zeros12 = .ok v ∧
      asFloatList v fld = .ok (floats12Field (.dict fs) k) ∧
      (floats12Field (.dict fs) k).length = 12 := by
  unfold optFloats12 at h
  cases hl : Val.lookup fs k with
  | none =>
    refine ⟨zeros12, by simp [pyGet, hl], ?_, ?_⟩
    · have hall : (List.replicate 12 (Val.num 0)).all isNumV = true := by
        simp [List.all_eq_true, isNumV]
      rw [show asFloatList zeros12 fld =
            mapExc (fun x => asFloat x fld) (List.replicate 12 (Val.num 0)) from rfl,
        mapExc_asFloat_ok _ _ hall]
      simp [floats12Field, hl, List.map_replicate, numOfV]
    · simp [floats12Field, hl]
  | some v =>
    rw [hl] at h
    cases v with
    | list xs =>
      simp only [floatList12, Bool.and_eq_true, decide_eq_true_eq] at h
      obtain ⟨hlen, hall⟩ := h
      refine ⟨.list xs, by simp [pyGet, hl], ?_, ?_⟩
      · rw [show asFloatList (.list xs) fld = mapExc (fun x => asFloat x fld) xs from rfl,
          mapExc_asFloat_ok _ _ hall]
        simp [floats12Field, hl]
      · simp [floats12Field, hl, hlen]
    | null => exact absurd h (by simp [floatList12])
    | bool b => exact absurd h (by simp [floatList12])
    | num q => exact absurd h (by simp [floatList12])
    | str s => exact absurd h (by simp [floatList12])
    | dict gs => exact absurd h (by simp [floatList12])

/-- The spec-side loudness chain coincides with the nested numeric
defaulting of the source. -/
theorem segLoudness_eq (fs : List (String × Val)) :
    numField (.dict fs) "loudness_start" (numField (.dict fs) "loudness" (-60)) =
      segLoudness (.dict fs) := by
  cases hl : Val.lookup fs "loudness_start" with
  | none =>
    cases hl2 : Val.lookup fs "loudness" with
    | none => simp [numField, segLoudness, hl, hl2]
    | some v => cases v <;> simp [numField, segLoudness, hl, hl2]
  | some v =>
    cases v with
    | num q => simp [numField, segLoudness, hl]
    | null =>
      cases hl2 : Val.lookup fs "loudness" with
      | none => simp [numField, segLoudness, hl, hl2]
      | some w => cases w <;> simp [numField, segLoudness, hl, hl2]
    | bool b =>
      cases hl2 : Val.lookup fs "loudness" with
      | none => simp [numField, segLoudness, hl, hl2]
      | some w => cases w <;> simp [numField, segLoudness, hl, hl2]
    | str s =>
      cases hl2 : Val.lookup fs "loudness" with
      | none => simp [numField, segLoudness, hl, hl2]
      | some w => cases w <;> simp [numField, segLoudness, hl, hl2]
    | list xs =>
      cases hl2 : Val.lookup fs "loudness" with
      | none => simp [numField, segLoudness, hl, hl2]
      | some w => cases w <;> simp [numField, segLoudness, hl, hl2]
    | dict gs =>
      cases hl2 : Val.lookup fs "loudness" with
      | none => simp [numField, segLoudness, hl, hl2]
      | some w => cases w <;> simp [numField, segLoudness, hl, hl2]

/-- On a well-formed beat record the filter of the comprehension evaluates
without raising, to the spec-side confidence comparison. -/
theorem beat_filter_eval (b : Val) (h : beatOk b = true) :
    ∃ cv, pyGet b "confidence" (.num 0) = .ok cv ∧
      pyGtFloat cv confThreshold =
        .ok (decide (confThreshold < numField b "confidence" 0)) := by
  cases b with
  | dict fs =>
    cases hc : Val.lookup fs "confidence" with
    | none =>
      refine ⟨.num 0, by simp [pyGet, hc], ?_⟩
      simp [pyGtFloat, numField, hc]
    | some v =>
      cases v with
      | num c =>
        refine ⟨.num c, by simp [pyGet, hc], ?_⟩
        simp [pyGtFloat, numField, hc]
      | null => simp [beatOk, hc] at h
      | bool x => simp [beatOk, hc] at h
      | str s => simp [beatOk, hc] at h
      | list xs => simp [beatOk, hc] at h
      | dict gs => simp [beatOk, hc] at h
  | null => simp [beatOk] at h
  | bool x => simp [beatOk] at h
  | num q => simp [beatOk] at h
  | str s => simp [beatOk] at h
  | list xs => simp [beatOk] at h

/-- On a well-formed beat record that passes the filter, the source
conversion succeeds and agrees with the spec-side conversion. -/
theorem convBeat_spec (b : Val) (h : beatOk b = true)
    (hk : confThreshold < numField b "confidence" 0) :
    convBeat b = .ok (specBeat b) := by
  cases b with
  | dict fs =>
    cases hc : Val.lookup fs "confidence" with
    | none =>
      have : confThreshold < 0 := by simpa [numField, hc] using hk
      exact absurd this (by rw [confThreshold_eq]; norm_num)
    | some v =>
      cases v with
      | num c =>
        have hkc : confThreshold < c := by simpa [numField, hc] using hk
        have h2 := h
        simp only [beatOk, hc, if_pos hkc, Bool.and_eq_true] at h2
        obtain ⟨⟨hst, hdu⟩, hc1⟩ := h2
        cases hst0 : Val.lookup fs "start" with
        | none => rw [hst0] at hst; exact absurd hst (by simp)
        | some sv =>
          cases sv with
          | num s =>
            rw [hst0] at hst
            have hs0 : (0 : ℚ) ≤ s := by simpa using hst
            cases hdu0 : Val.lookup fs "duration" with
            | none => rw [hdu0] at hdu; exact absurd hdu (by simp)
            | some dv =>
              cases dv with
              | num d =>
                rw [hdu0] at hdu
                have hd0 : (0 : ℚ) < d := by simpa using hdu
                have hcle : c ≤ 1 := by simpa using hc1
                have hcond : ¬(c < 0 ∨ 1 < c) := by
                  push_neg
                  refine ⟨le_of_lt (lt_trans ?_ hkc), hcle⟩
                  rw [confThreshold_eq]
                  norm_num
                simp only [convBeat, pyGetItem, hst0, hdu0, hc, exc_ok_bind, asFloat,
                  BeatData.validate, if_neg (not_lt.mpr hs0), if_neg (not_le.mpr hd0),
                  if_neg hcond, specBeat, numField]
              | null => rw [hdu0] at hdu; exact absurd hdu (by simp)
              | bool x => rw [hdu0] at hdu; exact absurd hdu (by simp)
              | str t => rw [hdu0] at hdu; exact absurd hdu (by simp)
              | list xs => rw [hdu0] at hdu; exact absurd hdu (by simp)
              | dict gs => rw [hdu0] at hdu; exact absurd hdu (by simp)
          | null => rw [hst0] at hst; exact absurd hst (by simp)
          | bool x => rw [hst0] at hst; exact absurd hst (by simp)
          | str t => rw [hst0] at hst; exact absurd hst (by simp)
          | list xs => rw [hst0] at hst; exact absurd hst (by simp)
          | dict gs => rw [hst0] at hst; exact absurd hst (by simp)
      | null => simp [beatOk, hc] at h
      | bool x => simp [beatOk, hc] at h
      | str s => simp [beatOk, hc] at h
      | list xs => simp [beatOk, hc] at h
      | dict gs => simp [beatOk, hc] at h
  | null => simp [beatOk] at h
  | bool x => simp [beatOk] at h
  | num q => simp [beatOk] at h
  | str s => simp [beatOk] at h
  | list xs => simp [beatOk] at h

/-- On a list of well-formed beat records the comprehension succeeds with
the filtered, converted records, in order. -/
theorem buildBeats_spec (l : List Val) (h : l.all beatOk = true) :
    buildBeats l =
      .ok ((l.filter (fun b => decide (confThreshold < numField b "confidence" 0))).map
        specBeat) := by
  induction l with
  | nil => rfl
  | cons b rest ih =>
    simp only [List.all_cons, Bool.and_eq_true] at h
    obtain ⟨hb, hrest⟩ := h
    obtain ⟨cv, hcv, hgt⟩ := beat_filter_eval b hb
    by_cases hk : confThreshold < numField b "confidence" 0
    · simp only [buildBeats, hcv, exc_ok_bind, hgt, decide_eq_true hk, if_pos,
        convBeat_spec b hb hk, ih hrest, List.filter_cons, List.map_cons]
    · simp only [buildBeats, hcv, exc_ok_bind, hgt]
      rw [decide_eq_false hk]
      simp only [Bool.false_eq_true, if_false, ih hrest, List.filter_cons]
      rw [decide_eq_false hk]
      simp

/-- On a well-formed segment record the source conversion succeeds and
agrees with the spec-side conversion (loudness chain, twelve-zero
defaults). -/
theorem convSegment_spec (s : Val) (h : segOk s = true) :
    convSegment s = .ok (specSegment s) := by
  cases s with
  | dict fs =>
    simp only [segOk, Bool.and_eq_true] at h
    obtain ⟨⟨⟨⟨⟨h1, h2⟩, h3⟩, h4⟩, h5⟩, h6⟩ := h
    obtain ⟨st, hst, hst0⟩ := reqNum_get h1
    obtain ⟨du, hdu, hdu0⟩ := reqNum_get h2
    have hld := optNum_pyGet (P := fun _ => True) (-60) trivial h4
    have hls := optNum_pyGet (P := fun _ => True)
      (numField (.dict fs) "loudness" (-60)) trivial h3
    obtain ⟨pv, hpv, hpl, hplen⟩ := optFloats12_pyGet "pitches" h5
    obtain ⟨tv, htv, htl, htlen⟩ := optFloats12_pyGet "timbre" h6
    simp only [convSegment, pyGetItem, hst, hdu, exc_ok_bind, hld.1, hls.1, hpv, htv,
      asFloat, hpl, htl, SegmentData.validate, if_neg (not_lt.mpr hst0),
      if_neg (not_le.mpr hdu0)]
    rw [if_neg (by simp [hplen]), if_neg (by simp [htlen])]
    simp only [specSegment, numField, hst, hdu]
    exact congrArg Except.ok (by
      have hseg := segLoudness_eq fs
      simp only [numField] at hseg
      rw [hseg])
  | null => simp [segOk] at h
  | bool b => simp [segOk] at h
  | num q => simp [segOk] at h
  | str t => simp [segOk] at h
  | list xs => simp [segOk] at h

/-- On a list of well-formed segment records the comprehension succeeds
with the converted records, in order. -/
theorem buildSegments_spec (l : List Val) (h : l.all segOk = true) :
    buildSegments l = .ok (l.map specSegment) := by
  induction l with
  | nil => rfl
  | cons s rest ih =>
    simp only [List.all_cons, Bool.and_eq_true] at h
    obtain ⟨hs, hrest⟩ := h
    simp only [buildSegments, convSegment_spec s hs, exc_ok_bind, ih hrest,
      List.map_cons]

/-- On a well-formed section record the source conversion succeeds and
agrees with the spec-side conversion (tempo/key/mode/loudness defaults). -/
theorem convSection_spec (s : Val) (h : secOk s = true) :
    convSection s = .ok (specSection s) := by
  cases s with
  | dict fs =>
    simp only [secOk, Bool.and_eq_true] at h
    obtain ⟨⟨⟨⟨⟨h1, h2⟩, h3⟩, h4⟩, h5⟩, h6⟩ := h
    obtain ⟨st, hst, hst0⟩ := reqNum_get h1
    obtain ⟨du, hdu, hdu0⟩ := reqNum_get h2
    have hte := optNum_pyGet (P := fun q => 0 < q) 120 (by norm_num) h3
    obtain ⟨kv, hkv, hki, hkP⟩ := optInt_pyGet (-1) (-1) (by norm_num) (by norm_num)
      "key" h4
    obtain ⟨mv, hmv, hmi, hmP⟩ := optInt_pyGet 0 0 (by norm_num) (by norm_num)
      "mode" h5
    have hlo := optNum_pyGet (P := fun _ => True) (-10) trivial h6
    simp only [convSection, pyGetItem, hst, hdu, exc_ok_bind, hte.1, hkv, hmv, hlo.1,
      asFloat, hki, hmi, SectionData.validate, if_neg (not_lt.mpr hst0),
      if_neg (not_le.mpr hdu0), if_neg (not_le.mpr hte.2)]
    rw [if_neg (by push_neg; exact ⟨hkP.1, hkP.2⟩), if_neg (by push_neg; exact ⟨hmP.1, hmP.2⟩)]
    simp [specSection, numField, hst, hdu]
  | null => simp [secOk] at h
  | bool b => simp [secOk] at h
  | num q => simp [secOk] at h
  | str t => simp [secOk] at h
  | list xs => simp [secOk] at h

/-- On a list of well-formed section records the comprehension succeeds
with the converted records, in order. -/
theorem buildSections_spec (l : List Val) (h : l.all secOk = true) :
    buildSections l = .ok (l.map specSection) := by
  induction l with
  | nil => rfl
  | cons s rest ih =>
    simp only [List.all_cons, Bool.and_eq_true] at h
    obtain ⟨hs, hrest⟩ := h
    simp only [buildSections, convSection_spec s hs, exc_ok_bind, ih hrest,
      List.map_cons]

theorem listFieldOk_cases {fs : List (String × Val)} {k : String} {p : Val → Bool}
    (h : listFieldOk fs k p = true) :
    ∃ xs, (Val.lookup fs k).getD (.list []) = .list xs ∧ xs.all p = true ∧
      listField (.dict fs) k = xs := by
  unfold listFieldOk at h
  cases hl : Val.lookup fs k with
  | none => exact ⟨[], by simp [hl], rfl, by simp [listField, hl]⟩
  | some v =>
    rw [hl] at h
    cases v with
    | list xs => exact ⟨xs, by simp, h, by simp [listField, hl]⟩
    | null => exact absurd h (by simp)
    | bool b => exact absurd h (by simp)
    | num q => exact absurd h (by simp)
    | str s => exact absurd h (by simp)
    | dict gs => exact absurd h (by simp)

theorem segsFieldOk_cases {fs : List (String × Val)}
    (h : segsFieldOk fs = true) :
    ∃ xs, (Val.lookup fs "segments").getD (.list []) = .list xs ∧
      (xs.take 2000).all segOk = true ∧ listField (.dict fs) "segments" = xs := by
  unfold segsFieldOk at h
  cases hl : Val.lookup fs "segments" with
  | none => exact ⟨[], by simp [hl], rfl, by simp [listField, hl]⟩
  | some v =>
    rw [hl] at h
    cases v with
    | list xs => exact ⟨xs, by simp, h, by simp [listField, hl]⟩
    | null => exact absurd h (by simp)
    | bool b => exact absurd h (by simp)
    | num q => exact absurd h (by simp)
    | str s => exact absurd h (by simp)
    | dict gs => exact absurd h (by simp)

theorem trackFieldOk_get {fs : List (String × Val)} (h : trackFieldOk fs = true) :
    ∃ ts, (Val.lookup fs "track").getD (.dict []) = .dict ts ∧
      trackOf (.dict fs) = .dict ts ∧
      optNum ts "duration" (fun _ => True) = true ∧
      optNum ts "tempo" (fun _ => True) = true := by
  unfold trackFieldOk at h
  cases hl : Val.lookup fs "track" with
  | none =>
    refine ⟨[], by simp [hl], by simp [trackOf, hl], ?_, ?_⟩ <;> simp [optNum, Val.lookup]
  | some v =>
    rw [hl] at h
    cases v with
    | dict ts =>
      simp only [Bool.and_eq_true] at h
      exact ⟨ts, by simp, by simp [trackOf, hl], h.1, h.2⟩
    | null => exact absurd h (by simp)
    | bool b => exact absurd h (by simp)
    | num q => exact absurd h (by simp)
    | str s => exact absurd h (by simp)
    | list xs => exact absurd h (by simp)

/-- C1 (amended): on every pair of well-formed raw payloads — both dicts;
each beat record that passes the confidence filter carrying numeric start
at least 0, duration above 0 and confidence at most 1; each of the first
2000 segment records and each section record likewise well-formed, with
optional numeric fields absent-or-numeric and pitches/timbre absent or
lists of exactly twelve numbers; the track sub-object and the features
payload well-shaped — the transformer succeeds and every absent optional
field falls back to its stated default: segment loudness to
loudness_start, else loudness, else -60.0; pitches/timbre to twelve zeros
when absent (a present list of the wrong length is rejected, not padded);
section tempo 120, key -1, mode 0, loudness -10; top-level duration 0,
tempo from features then track then 120, energy one half.  The result is
exactly the spec-side total transform specResult. -/
theorem C1_transform_defaults (tid : String) (a f : Val)
    (h : analysisOk a f = true) :
    process_analysis tid a f = .ok (specResult tid a f) := by
  cases a with
  | dict fs =>
    cases f with
    | dict gs =>
      simp only [analysisOk, Bool.and_eq_true] at h
      obtain ⟨⟨⟨⟨⟨hB, hS⟩, hC⟩, hT⟩, hFt⟩, hFe⟩ := h
      obtain ⟨bxs, hb1, hb2, hb3⟩ := listFieldOk_cases hB
      obtain ⟨sxs, hs1, hs2, hs3⟩ := segsFieldOk_cases hS
      obtain ⟨cxs, hc1, hc2, hc3⟩ := listFieldOk_cases hC
      obtain ⟨ts, ht1, ht2, htd, htt⟩ := trackFieldOk_get hT
      have hbg : pyGet (Val.dict fs) "beats" (.list []) = .ok (.list bxs) := by
        simp [pyGet, hb1]
      have hsg : pyGet (Val.dict fs) "segments" (.list []) = .ok (.list sxs) := by
        simp [pyGet, hs1]
      have hcg : pyGet (Val.dict fs) "sections" (.list []) = .ok (.list cxs) := by
        simp [pyGet, hc1]
      have htg : pyGet (Val.dict fs) "track" (.dict []) = .ok (.dict ts) := by
        simp [pyGet, ht1]
      have hdur := optNum_pyGet (P := fun _ => True) 0 trivial htd
      have htdef := optNum_pyGet (P := fun _ => True) 120 trivial htt
      have htv := optNum_pyGet (P := fun _ => True)
        (numField (.dict ts) "tempo" 120) trivial hFt
      have hen := optNum_pyGet (P := fun _ => True) (mkRat 1 2) trivial hFe
      simp only [process_analysis, hbg, exc_ok_bind, asIter, buildBeats_spec bxs hb2,
        hsg, asSeq, buildSegments_spec (sxs.take 2000) hs2, hcg,
        buildSections_spec cxs hc2, htg, hdur.1, htdef.1, htv.1, hen.1, asFloat]
      simp [specResult, hb3, hs3, hc3, ht2]
    | null => simp [analysisOk] at h
    | bool b => simp [analysisOk] at h
    | num q => simp [analysisOk] at h
    | str s => simp [analysisOk] at h
    | list xs => simp [analysisOk] at h
  | null => simp [analysisOk] at h
  | bool b => simp [analysisOk] at h
  | num q => simp [analysisOk] at h
  | str s => simp [analysisOk] at h
  | list xs => simp [analysisOk] at h

/-- Inversion of a successful transformer run: the beat and segment
pipelines each succeeded and produced the corresponding result fields. -/
theorem process_analysis_inv {tid : String} {a f : Val} {r : AnalysisResponse}
    (hp : process_analysis tid a f = .ok r) :
    (∃ rb bl, pyGet a "beats" (.list []) = .ok rb ∧ asIter rb = .ok bl ∧
      buildBeats bl = .ok r.beats) ∧
    (∃ rs sl, pyGet a "segments" (.list []) = .ok rs ∧ asSeq rs = .ok sl ∧
      buildSegments (sl.take 2000) = .ok r.segments) := by
  simp only [process_analysis, exc_bind_ok_iff] at hp
  obtain ⟨rb, hrb, bl, hbl, beats, hbeats, rs, hrs, sl, hsl, segs, hsegs, rc, hrc,
    cl, hcl, secs, hsecs, ti, hti, dv, hdv, td, htd, tv, htv, ev, hev, dq, hdq,
    tq, htq, eq2, heq, hfin⟩ := hp
  injection hfin with h
  subst h
  exact ⟨⟨rb, bl, hrb, hbl, hbeats⟩, ⟨rs, sl, hrs, hsl, hsegs⟩⟩

/-- Inversion of the segments comprehension: the output has the same
length as the input and each output entry is the conversion of the input
entry at the same index. -/
theorem buildSegments_inv (l : List Val) (out : List SegmentData)
    (h : buildSegments l = .ok out) :
    out.length = l.length ∧
      ∀ i (hi : i < l.length) (ho : i < out.length),
        convSegment (l.get ⟨i, hi⟩) = .ok (out.get ⟨i, ho⟩) := by
  induction l generalizing out with
  | nil =>
    injection h with h
    subst h
    exact ⟨rfl, fun i hi _ => absurd hi (by simp)⟩
  | cons s rest ih =>
    simp only [buildSegments, exc_bind_ok_iff] at h
    obtain ⟨sd, hsd, tail, htail, hout⟩ := h
    injection hout with hout
    subst hout
    obtain ⟨hlen, hidx⟩ := ih tail htail
    refine ⟨by simp [hlen], ?_⟩
    intro i hi ho
    cases i with
    | zero => simpa using hsd
    | succ j =>
      have hj : j < rest.length := by simpa using hi
      have hj2 : j < tail.length := by simpa using ho
      simpa using hidx j hj hj2

/-- Inversion of the beats comprehension: the output is the in-order
conversion of a sublist of the input, every member of which passed the
confidence filter. -/
theorem buildBeats_inv (l : List Val) (out : List BeatData)
    (h : buildBeats l = .ok out) :
    ∃ src : List Val, src.Sublist l ∧ src.length = out.length ∧
      (∀ b ∈ src, ∃ cv, pyGet b "confidence" (.num 0) = .ok cv ∧
        pyGtFloat cv confThreshold = .ok true) ∧
      ∀ i (hi : i < src.length) (ho : i < out.length),
        convBeat (src.get ⟨i, hi⟩) = .ok (out.get ⟨i, ho⟩) := by
  induction l generalizing out with
  | nil =>
    injection h with h
    subst h
    exact ⟨[], List.Sublist.refl [], rfl, by simp, fun i hi _ => absurd hi (by simp)⟩
  | cons b rest ih =>
    simp only [buildBeats, exc_bind_ok_iff] at h
    obtain ⟨cv, hcv, keep, hkeep, hrest⟩ := h
    cases keep with
    | false =>
      obtain ⟨src, hsub, hlen, hpass, hidx⟩ := ih out hrest
      exact ⟨src, hsub.cons b, hlen, hpass, hidx⟩
    | true =>
      simp only [if_true, exc_bind_ok_iff] at hrest
      obtain ⟨bd, hbd, tail, htail, hout⟩ := hrest
      injection hout with hout
      subst hout
      obtain ⟨src, hsub, hlen, hpass, hidx⟩ := ih tail htail
      refine ⟨b :: src, hsub.cons₂ b, by simp [hlen], ?_, ?_⟩
      · intro x hx
        cases hx with
        | head => exact ⟨cv, hcv, hkeep⟩
        | tail _ hx2 => exact hpass x hx2
      · intro i hi ho
        cases i with
        | zero => simpa using hbd
        | succ j =>
          have hj : j < src.length := by simpa using hi
          have hj2 : j < tail.length := by simpa using ho
          simpa using hidx j hj hj2

/-- C4: for every raw segment list, a successful transformer run produces
exactly min(input count, 2000) segments, each output entry being the
conversion of the input entry at the same index (the first entries, in
original order); in particular the result never has more than 2000
segments. -/
theorem C4_segment_cap (tid : String) (f : Val) (fs : List (String × Val))
    (xs : List Val) (r : AnalysisResponse)
    (hseg : Val.lookup fs "segments" = some (.list xs))
    (hp : process_analysis tid (.dict fs) f = .ok r) :
    r.segments.length = min xs.length 2000 ∧ r.segments.length ≤ 2000 ∧
      ∀ i (hi : i < r.segments.length), ∃ hx : i < xs.length,
        convSegment (xs.get ⟨i, hx⟩) = .ok (r.segments.get ⟨i, hi⟩) := by
  obtain ⟨-, rs, sl, hrs, hsl, hbs⟩ := process_analysis_inv hp
  have hrs2 : rs = .list xs := by
    have : pyGet (Val.dict fs) "segments" (.list []) = .ok (.list xs) := by
      simp [pyGet, hseg]
    rw [this] at hrs
    injection hrs with h
    exact h.symm
  rw [hrs2] at hsl
  have hsl2 : sl = xs := by
    injection hsl with h
    exact h.symm
  rw [hsl2] at hbs
  obtain ⟨hlen, hidx⟩ := buildSegments_inv (xs.take 2000) r.segments hbs
  have hlen2 : r.segments.length = min xs.length 2000 := by
    rw [hlen, List.length_take, Nat.min_comm]
  refine ⟨hlen2, by rw [hlen2]; exact Nat.min_le_right _ _, ?_⟩
  intro i hi
  have hx : i < xs.length := by
    have := hlen2 ▸ hi
    exact lt_of_lt_of_le this (Nat.min_le_left _ _)
  refine ⟨hx, ?_⟩
  have hti : i < (xs.take 2000).length := by rw [← hlen]; exact hi
  have := hidx i hti hi
  have hget : (xs.take 2000).get ⟨i, hti⟩ = xs.get ⟨i, hx⟩ := by
    simp [List.get_eq_getElem]
  rwa [hget] at this

/-- C5: for every raw beat list, a successful transformer run produces at
most as many beats as the input, and the output is the in-order
conversion of a sublist of the input every member of which passed the
confidence filter (b.get confidence 0 compared above 0.3). -/
theorem C5_beats_filter (tid : String) (f : Val) (fs : List (String × Val))
    (xs : List Val) (r : AnalysisResponse)
    (hbf : Val.lookup fs "beats" = some (.list xs))
    (hp : process_analysis tid (.dict fs) f = .ok r) :
    r.beats.length ≤ xs.length ∧
      ∃ src : List Val, src.Sublist xs ∧ src.length = r.beats.length ∧
        (∀ b ∈ src, ∃ cv, pyGet b "confidence" (.num 0) = .ok cv ∧
          pyGtFloat cv confThreshold = .ok true) ∧
        ∀ i (hi : i < src.length) (ho : i < r.beats.length),
          convBeat (src.get ⟨i, hi⟩) = .ok (r.beats.get ⟨i, ho⟩) := by
  obtain ⟨⟨rb, bl, hrb, hbl, hbb⟩, -⟩ := process_analysis_inv hp
  have hrb2 : rb = .list xs := by
    have : pyGet (Val.dict fs) "beats" (.list []) = .ok (.list xs) := by
      simp [pyGet, hbf]
    rw [this] at hrb
    injection hrb with h
    exact h.symm
  rw [hrb2] at hbl
  have hbl2 : bl = xs := by
    injection hbl with h
    exact h.symm
  rw [hbl2] at hbb
  obtain ⟨src, hsub, hlen, hpass, hidx⟩ := buildBeats_inv xs r.beats hbb
  exact ⟨hlen ▸ hsub.length_le, src, hsub, hlen, hpass, hidx⟩

/-! ## Validator lemmas and C9 -/

/-- The last character of a stripped string is never whitespace. -/
theorem pyStrip_getLast_not_ws (s : String) :
    ∀ c, (pyStrip s).toList.getLast? = some c → pyWS c = false := by
  intro c hc
  rw [show (pyStrip s).toList =
        ((s.toList.dropWhile pyWS).reverse.dropWhile pyWS).reverse from rfl,
    List.getLast?_reverse] at hc
  have h := List.head?_dropWhile_not pyWS (s.toList.dropWhile pyWS).reverse
  rw [hc] at h
  exact h

/-- On stripped input the Python regex match coincides with the plain
full-match reading (the Dollar-before-trailing-newline tolerance cannot
fire because strip removed any trailing newline). -/
theorem reMatch22_strip (s : String) :
    reMatch22 (pyStrip s) = matches22 (pyStrip s) := by
  have h : ¬((pyStrip s).toList.getLast? = some '\n') := by
    intro hc
    have := pyStrip_getLast_not_ws s _ hc
    simp [pyWS] at this
  simp only [reMatch22, matches22]
  rw [if_neg h]

/-- C9: for every input string, if the trimmed form matches the 22-char
base62 pattern then both validators succeed and return the trimmed value
unchanged; otherwise the route validator fails with InvalidTrackError
(HTTP 400, the InvalidIdentifier of the specification) and the
dependencies validator fails with a ValueError. -/
theorem C9_validate_track_id : ∀ s : String,
    (matches22 (pyStrip s) = true →
      validate_track_id_param s = .ok (pyStrip s) ∧
      validate_track_id s = .ok (pyStrip s)) ∧
    (matches22 (pyStrip s) = false →
      validate_track_id_param s = .error (.httpError 400 "Invalid track ID format") ∧
      ∃ m, validate_track_id s = .error (.valueError m)) := by
  intro s
  have hre := reMatch22_strip s
  constructor
  · intro hm
    have hr : reMatch22 (pyStrip s) = true := by rw [hre]; exact hm
    have hne : s.toList.isEmpty = false := by
      cases hLis : s.toList.isEmpty with
      | false => rfl
      | true =>
        exfalso
        have hnil : s.toList = [] := by simpa using hLis
        have hps : pyStrip s = "" := by
          unfold pyStrip
          rw [hnil]
          rfl
        rw [hps] at hm
        simp [matches22] at hm
    have hne2 : ¬s.data = [] := by
      intro hh
      rw [show s.toList = s.data from rfl, hh] at hne
      simp at hne
    exact ⟨by simp [validate_track_id_param, hr],
      by simp [validate_track_id, hne2, hr]⟩
  · intro hm
    have hr : reMatch22 (pyStrip s) = false := by rw [hre]; exact hm
    refine ⟨by simp [validate_track_id_param, hr], ?_⟩
    cases hLis : s.toList.isEmpty with
    | false =>
      have hne2 : ¬s.data = [] := by
        intro hh
        rw [show s.toList = s.data from rfl, hh] at hLis
        simp at hLis
      exact ⟨"Invalid track ID format", by simp [validate_track_id, hne2, hr]⟩
    | true =>
      have hda : s.data = [] := by
        rw [show s.toList = s.data from rfl] at hLis
        simpa using hLis
      exact ⟨"Track ID required", by simp [validate_track_id, hda]⟩

/-! ## Cache store theorems: C2, C7, C8 -/

/-- C2 (code bug witness): an entry older than the TTL that the backing
store has not yet physically removed is still returned as a hit — the
read path has no cached_at check, contrary to the docstring of
get_cached_analysis (Returns None if not found or expired). -/
theorem C2_expired_entry_still_hit :
    isExpired expiredDoc (ttlSeconds + 1) ∧
      getCachedPure [expiredDoc] "6rqhFgbbKwnb9MLmUQDhG6" =
        some (.dict [("tempo", .num 120)]) := by
  constructor
  · show ttlSeconds < ttlSeconds + 1 - expiredDoc.cached_at
    norm_num [expiredDoc]
  · rfl

/-- C7: every backing-store failure during a cache read degrades to a
miss (ok none) and every failure during a cache write degrades to a
returned False; once the connection is initialized neither operation ever
lets an exception escape. -/
theorem C7_cache_failures_absorbed :
    (∀ findRes : Except PyErr (Option Val), okB (get_cached_analysis true findRes) = true) ∧
    (∀ updRes : Except PyErr Unit, okB (cache_analysis true updRes) = true) ∧
    (∀ e : PyErr, get_cached_analysis true (.error e) = .ok none) ∧
    (∀ e : PyErr, cache_analysis true (.error e) = .ok false) := by
  refine ⟨?_, ?_, fun e => rfl, fun e => rfl⟩
  · intro findRes
    cases findRes with
    | error e => rfl
    | ok o =>
      cases o with
      | none => rfl
      | some v =>
        cases v with
        | dict fs => cases hfs : fs.isEmpty <;> simp [get_cached_analysis, okB, hfs]
        | null => rfl
        | bool b => rfl
        | num q => rfl
        | str s => rfl
        | list xs => rfl
  · intro updRes
    cases updRes with
    | error e => rfl
    | ok u => rfl

/-- After an upsert for a track id, a read of that id finds exactly the
written analysis value. -/
theorem getCachedPure_upsert (store : List CacheDoc) (tid : String) (v : Val) (t : ℚ) :
    getCachedPure (update_one_upsert store tid v t) tid = some v := by
  induction store with
  | nil => simp [update_one_upsert, getCachedPure, find_one, List.find?]
  | cons d rest ih =>
    by_cases hd : d.track_id == tid
    · simp [update_one_upsert, hd, getCachedPure, find_one, List.find?]
    · simp only [update_one_upsert]
      rw [if_neg (by simpa using hd)]
      simpa [getCachedPure, find_one, List.find?, hd] using ih

/-- C8: cache round trip (a put followed by a get returns the written
value) and upsert semantics (two puts for the same id leave exactly the
second value, never the first and never a merge). -/
theorem C8_cache_roundtrip_upsert :
    (∀ (store : List CacheDoc) (tid : String) (v : Val) (t : ℚ),
      getCachedPure (update_one_upsert store tid v t) tid = some v) ∧
    (∀ (store : List CacheDoc) (tid : String) (v1 v2 : Val) (t1 t2 : ℚ),
      getCachedPure (update_one_upsert (update_one_upsert store tid v1 t1) tid v2 t2) tid
        = some v2) :=
  ⟨fun store tid v t => getCachedPure_upsert store tid v t,
   fun store tid v1 v2 t1 t2 => getCachedPure_upsert _ tid v2 t2⟩

/-! ## Upstream classification: C6 -/

/-- C6 (counterexample): an upstream 429 is not classified as a 429
RateLimited error with a propagated retry-after; it raises SpotifyAPIError
with HTTP status 502 and a static message. -/
theorem C6_counterexample_429 :
    make_request (.response 429 (some "5") (.dict [])) =
      .error (.httpError 502 "Rate limited by Spotify. Try again shortly.") ∧
    errStatus (make_request (.response 429 (some "5") (.dict []))) ≠ some 429 := by
  exact ⟨rfl, by decide⟩

/-- C6 (amended): the actual classification table of _make_request:
204 → ok none; 401 → 401 auth error; 404 → 404 not found; 429 → 502 with
the static rate-limit message (the Retry-After header is only read for
logging, defaulting to the string 60 when absent, never parsed or
propagated); 5xx → 502 default message; other 4xx → 502 Request failed;
2xx/3xx other than 204 → ok body; timeout → 502 timeout message; other
network failure → 502 default message. -/
theorem C6_status_classification :
    (∀ h b, make_request (.response 204 h b) = .ok none) ∧
    (∀ h b, make_request (.response 401 h b) =
      .error (.httpError 401 "Token expired. Please re-authenticate.")) ∧
    (∀ h b, make_request (.response 404 h b) =
      .error (.httpError 404 "Track not found")) ∧
    (∀ h b, make_request (.response 429 h b) =
      .error (.httpError 502 "Rate limited by Spotify. Try again shortly.")) ∧
    (∀ s h b, 500 ≤ s → make_request (.response s h b) =
      .error (.httpError 502 "Spotify service temporarily unavailable")) ∧
    (∀ s h b, 400 ≤ s → s < 500 → s ≠ 401 → s ≠ 404 → s ≠ 429 →
      make_request (.response s h b) = .error (.httpError 502 "Request failed")) ∧
    (∀ s h b, s < 400 → s ≠ 204 → make_request (.response s h b) = .ok (some b)) ∧
    make_request .timeout = .error (.httpError 502 "Spotify is not responding. Try again.") ∧
    make_request .netError = .error (.httpError 502 "Spotify service temporarily unavailable") ∧
    (∀ ra, retryAfterLogged (some ra) = ra) ∧ retryAfterLogged none = "60" := by
  refine ⟨fun h b => rfl, fun h b => rfl, fun h b => rfl, fun h b => rfl,
    ?_, ?_, ?_, rfl, rfl, fun ra => rfl, rfl⟩
  · intro s h b hs
    have h1 : ¬(s = 204) := by omega
    have h2 : ¬(s = 401) := by omega
    have h3 : ¬(s = 404) := by omega
    have h4 : ¬(s = 429) := by omega
    simp [make_request, h1, h2, h3, h4, hs]
  · intro s h b h400 h500 h401 h404 h429
    have h1 : ¬(s = 204) := by omega
    have h5 : ¬(500 ≤ s) := by omega
    simp [make_request, h1, h401, h404, h429, h5, h400]
  · intro s h b h400 h204
    have h1 : ¬(s = 401) := by omega
    have h2 : ¬(s = 404) := by omega
    have h3 : ¬(s = 429) := by omega
    have h4 : ¬(500 ≤ s) := by omega
    have h5 : ¬(400 ≤ s) := by omega
    simp [make_request, h204, h1, h2, h3, h4, h5]

/-! ## Transformer totality counterexample: C1 -/

/-- C1 (counterexample): the transformer is not total on untrusted input.
A beat record passing the confidence filter but missing its start field
raises KeyError; a segment record whose pitches list is present but
shorter than twelve entries raises a validation error instead of being
padded with zeros. -/
theorem C1_counterexample_raises :
    process_analysis tid22
      (.dict [("beats", .list [.dict [("confidence", .num (mkRat 1 2))]])])
      (.dict []) = .error (.keyError "start") ∧
    process_analysis tid22
      (.dict [("segments", .list [.dict [("start", .num 0), ("duration", .num 1),
        ("pitches", .list [.num 1])]])])
      (.dict []) = .error (.validationError "pitches") := by
  exact ⟨rfl, rfl⟩

/-! ## Orchestrator theorems: C3 and C10 -/

/-- C3 (counterexample): on a cache miss with a successful analysis fetch,
a failing features fetch aborts the whole request with the propagated
upstream error — it does not degrade to transformer defaults. -/
theorem C3_counterexample_features_abort :
    get_analysis tid22 "sometoken" (.ok none)
      (.ok (some (.dict [("beats", .list [])])))
      (.error (.httpError 502 "Spotify service temporarily unavailable"))
      (.ok ()) =
      (.error (.httpError 502 "Spotify service temporarily unavailable"), 2) := by
  rfl

/-- C3 (amended): after a cache miss, a failure of either upstream fetch
aborts the request with that error (the features fetch is not shielded);
when both fetches succeed, a falsy analysis payload is fatal with
NotFound (404, Track analysis not found). -/
theorem C3_fetch_error_propagation :
    (∀ (tid tok : String) (e : PyErr) (uRes : Except PyErr Unit)
        (aOpt : Option Val) (fRes : Except PyErr (Option Val)),
      reMatch22 (pyStrip tid) = true →
      get_analysis tid tok (.ok none) (.error e) fRes uRes = (.error e, 1) ∧
      get_analysis tid tok (.ok none) (.ok aOpt) (.error e) uRes = (.error e, 2)) ∧
    (∀ (tid tok : String) (uRes : Except PyErr Unit) (aOpt fOpt : Option Val),
      reMatch22 (pyStrip tid) = true →
      (aOpt.getD Val.null).truthy = false →
      get_analysis tid tok (.ok none) (.ok aOpt) (.ok fOpt) uRes =
        (.error (.httpError 404 "Track analysis not found"), 2)) := by
  constructor
  · intro tid tok e uRes aOpt fRes hm
    constructor <;>
      simp [get_analysis, validate_track_id_param, hm, get_cached_analysis, Val.truthy]
  · intro tid tok uRes aOpt fOpt hm ha
    have hnull : Val.truthy Val.null = false := rfl
    simp [get_analysis, validate_track_id_param, hm, get_cached_analysis, hnull, ha]

/-- C10: on a cache hit the analysis response does not depend on the
bearer token: for any two requests carrying any two tokens that pass
format validation (and any upstream oracles), no upstream call is issued
and both requests receive the identical cached AnalysisResult. -/
theorem C10_cache_hit_token_independent :
    ∀ (tid h1 h2 t1 t2 : String) (cg : Except PyErr (Option Val)) (d : Val)
      (r : AnalysisResponse) (a1 f1 : Except PyErr (Option Val))
      (u1 : Except PyErr Unit) (a2 f2 : Except PyErr (Option Val))
      (u2 : Except PyErr Unit),
      get_spotify_token (some h1) = .ok t1 →
      get_spotify_token (some h2) = .ok t2 →
      reMatch22 (pyStrip tid) = true →
      get_cached_analysis true cg = .ok (some d) →
      d.truthy = true →
      parseAnalysisResponse d = .ok r →
      get_analysis tid t1 cg a1 f1 u1 = (.ok r, 0) ∧
      get_analysis tid t2 cg a2 f2 u2 = (.ok r, 0) := by
  intro tid h1 h2 t1 t2 cg d r a1 f1 u1 a2 f2 u2 ht1 ht2 hm hcg hd hp
  constructor <;>
    simp [get_analysis, validate_track_id_param, hm, hcg, hd, hp]

/-! ## Witnesses -/

theorem C1_transform_defaults_witness :
    analysisOk aEx1 fEx1 = true ∧
      process_analysis tid22 aEx1 fEx1 = .ok (specResult tid22 aEx1 fEx1) :=
  ⟨by decide, C1_transform_defaults tid22 aEx1 fEx1 (by decide)⟩

theorem C4_segment_cap_witness :
    process_analysis tid22 aEx4 (.dict []) = .ok rEx4 ∧
      rEx4.segments.length = min 1 2000 :=
  ⟨rfl,
   (C4_segment_cap tid22 (.dict []) [("segments", .list [segRecEx])] [segRecEx]
     rEx4 rfl rfl).1⟩

theorem C5_beats_filter_witness :
    process_analysis tid22 aEx5 (.dict []) = .ok rEx5 ∧ rEx5.beats.length ≤ 1 :=
  ⟨rfl,
   (C5_beats_filter tid22 (.dict []) [("beats", .list [beatRecEx])] [beatRecEx]
     rEx5 rfl rfl).1⟩

theorem C9_validate_track_id_witness :
    validate_track_id_param "  aaaaaaaaaaaaaaaaaaaaaa  " = .ok tid22 ∧
      validate_track_id_param "short" =
        .error (.httpError 400 "Invalid track ID format") :=
  ⟨((C9_validate_track_id "  aaaaaaaaaaaaaaaaaaaaaa  ").1 (by decide)).1,
   ((C9_validate_track_id "short").2 (by decide)).1⟩

theorem C6_status_classification_witness :
    make_request (.response 503 none (.dict [])) =
      .error (.httpError 502 "Spotify service temporarily unavailable") ∧
    make_request (.response 418 none (.dict [])) =
      .error (.httpError 502 "Request failed") ∧
    make_request (.response 200 none (.dict [("ok", .bool true)])) =
      .ok (some (.dict [("ok", .bool true)])) :=
  ⟨C6_status_classification.2.2.2.2.1 503 none (.dict []) (by decide),
   C6_status_classification.2.2.2.2.2.1 418 none (.dict []) (by decide) (by decide)
     (by decide) (by decide) (by decide),
   C6_status_classification.2.2.2.2.2.2.1 200 none (.dict [("ok", .bool true)])
     (by decide) (by decide)⟩

theorem C3_fetch_error_propagation_witness :
    get_analysis tid22 "tok" (.ok none) (.ok (some (.dict [("x", .num 1)])))
        (.error .typeError) (.ok ()) = (.error .typeError, 2) ∧
    get_analysis tid22 "tok" (.ok none) (.ok none) (.ok none) (.ok ()) =
      (.error (.httpError 404 "Track analysis not found"), 2) :=
  ⟨(C3_fetch_error_propagation.1 tid22 "tok" .typeError (.ok ())
      (some (.dict [("x", .num 1)])) (.error .typeError) (by decide)).2,
   C3_fetch_error_propagation.2 tid22 "tok" (.ok ()) none none (by decide) rfl⟩

theorem C10_cache_hit_token_independent_witness :
    get_analysis tid22 (hdrEx1.drop 7) (.ok (some (.dict [("analysis", cachedDocEx)])))
        (.error .typeError) (.error .typeError) (.ok ()) = (.ok rEx10, 0) ∧
    get_analysis tid22 (hdrEx2.drop 7) (.ok (some (.dict [("analysis", cachedDocEx)])))
        (.ok none) (.ok none) (.error .typeError) = (.ok rEx10, 0) :=
  C10_cache_hit_token_independent tid22 hdrEx1 hdrEx2 (hdrEx1.drop 7) (hdrEx2.drop 7)
    (.ok (some (.dict [("analysis", cachedDocEx)]))) cachedDocEx rEx10
    (.error .typeError) (.error .typeError) (.ok ()) (.ok none) (.ok none)
    (.error .typeError) rfl rfl (by decide) rfl rfl rfl

end AV
